import Mathlib

/-!
Verification of the provider-adapter construction engine in
`text.pollinations.ai/genericOpenAIClient.js` (`createOpenAICompatibleClient`).

The adapter is embedded shallowly: JavaScript values are modelled by `JVal`,
the per-call effects of the out-of-repo helper functions
(`normalizeOptions`, `validateAndNormalizeMessages`, `ensureSystemMessage`,
`generateRequestId`) and of the network (`fetch`) are supplied by an oracle
record `Env`, and the adapter body itself (lines 45-271 of the source) is
translated control-flow-faithfully into `innerCall` (the `try` block) and
`adapterCall` (the whole function including the outer `catch`).
-/

namespace GenOpenAI

/-- A JavaScript value, as manipulated by the adapter.  `undef` is the
JavaScript `undefined` value, distinct from `null`. -/
inductive JVal where
  | null
  | undef
  | bool (b : Bool)
  | num (n : Int)
  | str (s : String)
  | arr (xs : List JVal)
  | obj (fs : List (String × JVal))

/-- JavaScript truthiness of a value (NaN is not modelled; the adapter never
produces one). -/
def JVal.truthy : JVal → Bool
  | .null => false
  | .undef => false
  | .bool b => b
  | .num n => n != 0
  | .str s => !s.isEmpty
  | .arr _ => true
  | .obj _ => true

/-- Is the value the JavaScript `null`? -/
def JVal.isNull : JVal → Bool
  | .null => true
  | _ => false

/-- Is the value the JavaScript `undefined`? -/
def JVal.isUndef : JVal → Bool
  | .undef => true
  | _ => false

/-- Property read `v[k]` on an object: `undefined` when the key is absent or
the receiver is not an object. -/
def JVal.get : JVal → String → JVal
  | .obj fs, k =>
    match List.lookup k fs with
    | some v => v
    | none => JVal.undef
  | _, _ => JVal.undef

/-- Property read on a field list (an object's own properties). -/
def getField (fs : List (String × JVal)) (k : String) : JVal :=
  match List.lookup k fs with
  | some v => v
  | none => JVal.undef

/-- Property write on a field list: overwrite in place when the key exists,
append otherwise (JavaScript assignment semantics on plain objects). -/
def setField : List (String × JVal) → String → JVal → List (String × JVal)
  | [], k, v => [(k, v)]
  | (k', v') :: rest, k, v =>
    if k' = k then (k, v) :: rest else (k', v') :: setField rest k v

/-- Property write `v[k] = x`: a no-op on non-objects (the adapter only
writes to parsed-JSON objects; a primitive receiver would fault in strict
mode, a case no claim exercises). -/
def JVal.set : JVal → String → JVal → JVal
  | .obj fs, k, v => .obj (setField fs k v)
  | w, _, _ => w

/-- The JavaScript `delete v[k]` on a field list. -/
def eraseField (fs : List (String × JVal)) (k : String) : List (String × JVal) :=
  fs.filter (fun kv => !(kv.1 == k))

/-- Does the object value have the key as an own property? -/
def hasKeyV (v : JVal) (k : String) : Bool :=
  match v with
  | .obj fs => (List.lookup k fs).isSome
  | _ => false

/-- One step of object-literal evaluation: define-or-overwrite a property,
keeping the original position on overwrite. -/
def objInsert (fs : List (String × JVal)) (kv : String × JVal) : List (String × JVal) :=
  if (List.lookup kv.1 fs).isSome then
    fs.map (fun kv' => if kv'.1 == kv.1 then (kv'.1, kv.2) else kv')
  else fs ++ [kv]

mutual

/-- Modelled from the spec: `cleanNullAndUndefined` lives in
`textGenerationUtils.js`, which is not under src/.  Spec section 4.2: it
"returns a structurally identical value with every key whose value is null
or absent removed, recursively through nested objects (arrays pass through
unsanitized at the element level unless elements are themselves objects)". -/
def cleanNullAndUndefined : JVal → JVal
  | .obj fs => .obj (cleanFields fs)
  | .arr xs => .arr (cleanElems xs)
  | v => v

/-- Field-list worker for `cleanNullAndUndefined`: drop null/undefined-valued
keys, recurse into kept values. -/
def cleanFields : List (String × JVal) → List (String × JVal)
  | [] => []
  | (k, v) :: rest =>
    if v.isNull || v.isUndef then cleanFields rest
    else (k, cleanNullAndUndefined v) :: cleanFields rest

/-- Element-list worker for `cleanNullAndUndefined`: elements are kept (even
null ones) but object elements are themselves cleaned. -/
def cleanElems : List JVal → List JVal
  | [] => []
  | v :: rest => cleanNullAndUndefined v :: cleanElems rest

end

mutual

/-- Does the value contain, at any depth, an object field whose value is the
JavaScript `null`?  (Used to state what sanitization passes remove.) -/
def hasNullField : JVal → Bool
  | .obj fs => fieldsHaveNull fs
  | .arr xs => elemsHaveNull xs
  | _ => false

/-- Field-list worker for `hasNullField`. -/
def fieldsHaveNull : List (String × JVal) → Bool
  | [] => false
  | (_, v) :: rest => v.isNull || hasNullField v || fieldsHaveNull rest

/-- Element-list worker for `hasNullField`. -/
def elemsHaveNull : List JVal → Bool
  | [] => false
  | v :: rest => hasNullField v || elemsHaveNull rest

end

/-- Percent-free two-digit lowercase hex rendering of a byte, for JSON string
escapes. -/
def hexByte (n : Nat) : String :=
  String.singleton (Nat.digitChar (n / 16)) ++ String.singleton (Nat.digitChar (n % 16))

/-- JSON escaping of a single character, as `JSON.stringify` performs it. -/
def escChar (c : Char) : String :=
  if c = '"' then "\\\""
  else if c = '\\' then "\\\\"
  else if c = '\n' then "\\n"
  else if c = '\r' then "\\r"
  else if c = '\t' then "\\t"
  else if c = Char.ofNat 8 then "\\b"
  else if c = Char.ofNat 12 then "\\f"
  else if c.toNat < 32 then "\\u00" ++ hexByte c.toNat
  else String.singleton c

/-- JSON escaping of a string body. -/
def escapeJson (s : String) : String :=
  String.join (s.toList.map escChar)

mutual

/-- The JavaScript `JSON.stringify` with no spacing, as used for the `fetch` body at source
line 155.  An `undefined` at the top level yields no string in JavaScript
(the request would have an empty body); it is rendered here as the empty
string. -/
def jsonStringify : JVal → String
  | .null => "null"
  | .undef => ""
  | .bool b => cond b "true" "false"
  | .num n => toString n
  | .str s => "\"" ++ escapeJson s ++ "\""
  | .arr xs => "[" ++ String.intercalate "," (jsonElems xs) ++ "]"
  | .obj fs => "\x7b" ++ String.intercalate "," (jsonFields fs) ++ "\x7d"

/-- Array elements under `JSON.stringify`: `undefined` elements render as
`null`. -/
def jsonElems : List JVal → List String
  | [] => []
  | v :: rest =>
    (if v.isUndef then "null" else jsonStringify v) :: jsonElems rest

/-- Object fields under `JSON.stringify`: `undefined`-valued keys are
skipped. -/
def jsonFields : List (String × JVal) → List String
  | [] => []
  | (k, v) :: rest =>
    if v.isUndef then jsonFields rest
    else ("\"" ++ escapeJson k ++ "\":" ++ jsonStringify v) :: jsonFields rest

end

/-- Do the characters of the second list start with the characters of the
first list? -/
def charsLeadWith : List Char → List Char → Bool
  | [], _ => true
  | _ :: _, [] => false
  | a :: as, b :: bs => a == b && charsLeadWith as bs

/-- Does the character list contain the pattern as a contiguous run? -/
def charsContain (pat : List Char) : List Char → Bool
  | [] => charsLeadWith pat []
  | c :: rest => charsLeadWith pat (c :: rest) || charsContain pat rest

/-- JavaScript `String.prototype.includes`. -/
def strIncludes (s pat : String) : Bool :=
  charsContain pat.toList s.toList

mutual

/-- JavaScript ToPropertyKey/ToString coercion for an object index, as in
`modelMapping[modelKey]` (source line 66) when the key is not a string. -/
def JVal.toPropertyKey : JVal → String
  | .str s => s
  | .undef => "undefined"
  | .null => "null"
  | .bool b => cond b "true" "false"
  | .num n => toString n
  | .arr xs => arrKeyParts xs
  | .obj _ => "[object Object]"

/-- The JavaScript `Array.prototype.toString`: comma-join of elements, with null and
undefined elements rendering as the empty string. -/
def arrKeyParts : List JVal → String
  | [] => ""
  | v :: rest =>
    (match v with
     | JVal.null => ""
     | JVal.undef => ""
     | w => JVal.toPropertyKey w)
    ++ (if rest.isEmpty then "" else ",") ++ arrKeyParts rest

end

/-- ASCII lowercase of a character, as `String.prototype.toLowerCase`
performs it on the ASCII provider names this repository uses. -/
def lowerChar (c : Char) : Char :=
  if c.toNat ≥ 65 ∧ c.toNat ≤ 90 then Char.ofNat (c.toNat + 32) else c

/-- The call `providerName.toLowerCase()` (source lines 41, 181, 242). -/
def strToLower (s : String) : String :=
  String.mk (s.toList.map lowerChar)

/-- The provider-specific secondary sanitization pass, source lines 98-126,
applied when `providerName === 'Cloudflare'`:
delete the null-valued top-level keys (lines 104-109); then, when
`response_format` is a truthy value of `typeof 'object'`, delete its
null-valued keys and delete the whole key when nothing remains
(lines 112-125).  For an array-valued `response_format`, JavaScript's
`delete` leaves holes that re-serialize as `null`, so at the JSON level the
only observable action is deleting the key once every element is null. -/
def cloudflarePass (body : List (String × JVal)) : List (String × JVal) :=
  let b1 := body.filter (fun kv => !(kv.2.isNull))
  match getField b1 "response_format" with
  | JVal.obj g =>
    let g2 := g.filter (fun kv => !(kv.2.isNull))
    if g2.isEmpty then eraseField b1 "response_format"
    else setField b1 "response_format" (JVal.obj g2)
  | JVal.arr xs =>
    if xs.all JVal.isNull then eraseField b1 "response_format" else b1
  | _ => b1

/-- The secondary pass lifted to values: `Object.keys` on a non-object body
finds no null-valued own property, so non-objects pass through. -/
def cloudflarePassV : JVal → JVal
  | .obj fs => .obj (cloudflarePass fs)
  | v => v

/-- The `config.endpoint` field: a fixed URL or a function of the resolved model name
(source lines 137-140). -/
inductive Endpoint where
  | url (s : String)
  | fn (f : JVal → String)

/-- Source line 138-140: `typeof endpoint === 'function' ? endpoint(modelName) : endpoint`. -/
def resolveEndpointUrl : Endpoint → JVal → String
  | .url s, _ => s
  | .fn f, m => f m

/-- The provider configuration destructured at source lines 28-39.
`authHeaderValue` is a zero-argument accessor returning the credential at
call time; its per-call return value is part of the call oracle `Env`.
`systemPrompts` and `defaultOptions` are consumed only by out-of-repo
helpers (`ensureSystemMessage`, `normalizeOptions`) whose results the
oracle supplies, so they carry no behavior here. -/
structure Config where
  endpoint : Endpoint
  authHeaderName : String := "Authorization"
  modelMapping : List (String × String) := []
  systemPrompts : List (String × String) := []
  defaultOptions : JVal := JVal.obj []
  providerName : String := "unknown"
  formatResponse : Option (JVal → String → Nat → JVal → JVal) := none
  additionalHeaders : List (String × String) := []
  transformRequest : Option (JVal → Except String JVal) := none

/-- The normalized option record produced by `normalizeOptions`
(out of repo; spec section 3 gives its fields).  Fields keep their
JavaScript values; `stream` and `jsonMode` are tested for truthiness by the
adapter (source lines 83 and 159). -/
structure NormOptions where
  model : JVal := JVal.undef
  temperature : JVal := JVal.undef
  stream : JVal := JVal.undef
  seed : JVal := JVal.undef
  maxTokens : JVal := JVal.undef
  jsonMode : JVal := JVal.undef
  tools : JVal := JVal.undef
  tool_choice : JVal := JVal.undef

/-- The upstream HTTP response visible to the adapter: status line, the
`content-type` entry of the (lowercased) header map, the body as text, and
the outcome of parsing the body as JSON. -/
structure HttpResponse where
  status : Nat
  statusText : String
  contentType : Option String := none
  bodyText : String := ""
  jsonBody : Except String JVal := Except.error "invalid json"

/-- node-fetch `response.ok`: status in the 2xx range. -/
def HttpResponse.ok (r : HttpResponse) : Bool :=
  200 ≤ r.status && r.status ≤ 299

/-- Per-call oracle: the values produced during one invocation by the
out-of-repo helpers and by the network.
`requestId` is `generateRequestId()` (line 47), `startTime` is
`Date.now()` (line 46), `authValue` is the result of the credential
accessor `authHeaderValue()` (lines 57 and 144, modelled as stable within
one call), `normalizedOptions` is the result of `normalizeOptions`
(line 62; the spec says it must not throw), `validatedMessages` is the
outcome of `validateAndNormalizeMessages(messages)` (line 69, may throw),
`messagesWithSystem` is the result of `ensureSystemMessage` (line 73), and
`fetchResult` is the transport outcome of the `fetch` call (line 152,
`Except.error` being a network-level rejection). -/
structure Env where
  requestId : String
  startTime : Nat
  authValue : JVal
  normalizedOptions : NormOptions
  validatedMessages : Except String JVal
  messagesWithSystem : JVal
  fetchResult : Except String HttpResponse

/-- Modelled from the spec: `createErrorResponse` (the Error Classifier)
lives in `textGenerationUtils.js`, which is not under src/.  Spec sections
3 and 7: "given any error value and the provider name, produces a Uniform
Error Response" whose shape carries the message and the provider name, and
which differs from successes by the presence of an error field. -/
def createErrorResponse (message providerName : String) : JVal :=
  JVal.obj
    [("error", JVal.obj [("message", JVal.str message)]),
     ("providerName", JVal.str providerName)]

/-- JavaScript `a || b`. -/
def jsOr (a b : JVal) : JVal :=
  if a.truthy then a else b

/-- Read of `modelMapping[k]` with a string key: the mapped identifier, or
`undefined`. -/
def mappingRead (mm : List (String × String)) (k : String) : JVal :=
  match List.lookup k mm with
  | some v => JVal.str v
  | none => JVal.undef

/-- The index `Object.keys(modelMapping)[0]` coerced to a property key: the first
key, or the string "undefined" when the mapping is empty. -/
def firstKey (mm : List (String × String)) : String :=
  match mm with
  | [] => "undefined"
  | (k, _) :: _ => k

/-- Source line 66:
`modelMapping[modelKey] || modelMapping[Object.keys(modelMapping)[0]]`. -/
def resolveModelName (mm : List (String × String)) (modelKey : JVal) : JVal :=
  jsOr (mappingRead mm modelKey.toPropertyKey) (mappingRead mm (firstKey mm))

/-- Source lines 76-86: the outbound request body literal.
`response_format` is `{type:'json_object'}` when `jsonMode` is truthy and
the `undefined` value otherwise. -/
def buildRequestBody (modelName messagesWithSystem : JVal) (o : NormOptions) :
    List (String × JVal) :=
  [("model", modelName),
   ("messages", messagesWithSystem),
   ("temperature", o.temperature),
   ("stream", o.stream),
   ("seed", o.seed),
   ("max_tokens", o.maxTokens),
   ("response_format",
     if o.jsonMode.truthy then JVal.obj [("type", JVal.str "json_object")]
     else JVal.undef),
   ("tools", o.tools),
   ("tool_choice", o.tool_choice)]

/-- Source lines 143-147: the header object literal
with the computed auth header name, the content type, and the spread of
`additionalHeaders`, under object-literal later-wins semantics. -/
def buildHeaders (authHeaderName : String) (authValue : JVal)
    (additionalHeaders : List (String × String)) : List (String × JVal) :=
  ((authHeaderName, authValue)
    :: ("Content-Type", JVal.str "application/json")
    :: additionalHeaders.map (fun kv => (kv.1, JVal.str kv.2))).foldl objInsert []

/-- Source lines 94-96: apply `transformRequest` when configured, else keep
the sanitized body.  The hook is caller-supplied JavaScript and may throw. -/
def appliedTransform (cfg : Config) (body : JVal) : Except String JVal :=
  match cfg.transformRequest with
  | some f => f body
  | none => Except.ok body

/-- Line 66: the resolved provider-native model name of one call. -/
def theModelName (cfg : Config) (env : Env) : JVal :=
  resolveModelName cfg.modelMapping env.normalizedOptions.model

/-- Lines 76-89: the request body after the generic sanitizer. -/
def theCleanedBody (cfg : Config) (env : Env) : JVal :=
  cleanNullAndUndefined
    (JVal.obj (buildRequestBody (theModelName cfg env) env.messagesWithSystem
      env.normalizedOptions))

/-- Lines 94-96: the outcome of the optional transform hook on the
sanitized body. -/
def theTransformed (cfg : Config) (env : Env) : Except String JVal :=
  appliedTransform cfg (theCleanedBody cfg env)

/-- Lines 98-126: the body actually dispatched, after the provider-specific
secondary pass when the provider is Cloudflare. -/
def theFinalBody (cfg : Config) (t : JVal) : JVal :=
  if cfg.providerName = "Cloudflare" then cloudflarePassV t else t

/-- An observable effect of one call; the only effect the embedding tracks
is the HTTP dispatch of source lines 152-156. -/
inductive Effect where
  | fetch (url : String) (method : String) (headers : List (String × JVal))
      (body : String)

/-- Source lines 180-191: the streaming envelope.  `error` is `none` for
the JavaScript `undefined` and `some m` for `{message: m}`; `isSSE` is
`none` when the `content-type` header is absent (optional chaining yields
`undefined`). -/
structure StreamingEnvelope where
  id : String
  object : String
  created : Nat
  model : JVal
  stream : Bool
  responseStream : String
  providerName : String
  isSSE : Option Bool
  choices : JVal
  error : Option String

/-- Lines 180-191: envelope construction for a streaming response. -/
def mkStreamingEnvelope (cfg : Config) (env : Env) (modelName : JVal)
    (r : HttpResponse) : StreamingEnvelope :=
  { id := strToLower cfg.providerName ++ "-" ++ env.requestId
    object := "chat.completion.chunk"
    created := env.startTime / 1000
    model := modelName
    stream := true
    responseStream := r.bodyText
    providerName := cfg.providerName
    isSSE := r.contentType.map (fun ct => strIncludes ct "text/event-stream")
    choices := JVal.arr [JVal.obj
      [("delta", JVal.obj [("content", JVal.str "")]),
       ("finish_reason", JVal.null),
       ("index", JVal.num 0)]]
    error :=
      if r.ok = false then
        some (cfg.providerName ++ " API error: " ++ toString r.status ++ " "
          ++ r.statusText)
      else none }

/-- Source lines 238-255: default response shaping, backfilling `id`,
`object` and `usage` when the parsed payload's field is falsy. -/
def backfill (data : JVal) (providerName requestId : String) : JVal :=
  let d1 :=
    if (data.get "id").truthy = false then
      data.set "id" (JVal.str (strToLower providerName ++ "-" ++ requestId))
    else data
  let d2 :=
    if (d1.get "object").truthy = false then
      d1.set "object" (JVal.str "chat.completion")
    else d1
  if (d2.get "usage").truthy = false then
    d2.set "usage" (JVal.obj
      [("prompt_tokens", JVal.num 0),
       ("completion_tokens", JVal.num 0),
       ("total_tokens", JVal.num 0)])
  else d2

/-- A value handed back by the adapter: the streaming envelope of lines
180-191, or a plain value (success data or a Uniform Error Response) on
the non-streaming path. -/
inductive CallValue where
  | envelope (e : StreamingEnvelope)
  | response (v : JVal)

/-- How one invocation of the adapter ends at the caller: a returned value,
or a thrown (promise-rejecting) error. -/
inductive CallOutcome where
  | returned (v : CallValue)
  | threw (msg : String)

/-- Source lines 232-259: the value returned on the non-streaming success
path — the custom formatter's output when `formatResponse` is configured
(line 234), else the backfilled payload (lines 238-259). -/
def nonStreamSuccess (cfg : Config) (env : Env) (data : JVal) : JVal :=
  match cfg.formatResponse with
  | some f => f data env.requestId env.startTime (theModelName cfg env)
  | none => backfill data cfg.providerName env.requestId

/-- The body of the `try` block, source lines 55-259, with the effect trace
of the call.  `Except.error` is a thrown JavaScript error reaching the
outer `catch`. -/
def innerCall (cfg : Config) (env : Env) :
    List Effect × Except String CallValue :=
  if env.authValue.truthy = false then
    ([], Except.error (cfg.providerName ++ " API key is not set"))
  else
    match env.validatedMessages with
    | Except.error e => ([], Except.error e)
    | Except.ok _ =>
      match theTransformed cfg env with
      | Except.error e => ([], Except.error e)
      | Except.ok t =>
        let eff := Effect.fetch
          (resolveEndpointUrl cfg.endpoint (theModelName cfg env)) "POST"
          (buildHeaders cfg.authHeaderName env.authValue cfg.additionalHeaders)
          (jsonStringify (theFinalBody cfg t))
        match env.fetchResult with
        | Except.error e => ([eff], Except.error e)
        | Except.ok r =>
          if env.normalizedOptions.stream.truthy then
            if r.ok = false then
              ([eff], Except.error (cfg.providerName ++ " API error: "
                ++ toString r.status ++ " " ++ r.statusText))
            else
              ([eff], Except.ok (CallValue.envelope
                (mkStreamingEnvelope cfg env (theModelName cfg env) r)))
          else
            if r.ok = false then
              ([eff], Except.ok (CallValue.response (createErrorResponse
                (cfg.providerName ++ " API error: " ++ toString r.status
                  ++ " " ++ r.statusText ++ " - " ++ r.bodyText)
                cfg.providerName)))
            else
              match r.jsonBody with
              | Except.error e => ([eff], Except.error e)
              | Except.ok data =>
                ([eff], Except.ok (CallValue.response
                  (nonStreamSuccess cfg env data)))

/-- The whole client function, source lines 45-271: the `try` body wrapped
in the outer `catch` of lines 260-270, which converts every thrown error
into a returned Uniform Error Response. -/
def adapterCall (cfg : Config) (env : Env) : List Effect × CallOutcome :=
  match innerCall cfg env with
  | (tr, Except.ok v) => (tr, CallOutcome.returned v)
  | (tr, Except.error e) =>
    (tr, CallOutcome.returned (CallValue.response
      (createErrorResponse e cfg.providerName)))

theorem lookup_cons_same {β : Type} (k : String) (v : β) (es : List (String × β)) :
    List.lookup k ((k, v) :: es) = some v := by
  simp

theorem lookup_cons_diff {β : Type} (k k' : String) (v : β) (es : List (String × β))
    (h : k ≠ k') : List.lookup k ((k', v) :: es) = List.lookup k es := by
  have : (k == k') = false := by simpa using h
  simp [List.lookup_cons, this]

theorem lookup_filter_of_pred {β : Type} (k : String) (v : β) (p : String × β → Bool)
    (l : List (String × β)) (hl : List.lookup k l = some v) (hp : p (k, v) = true) :
    List.lookup k (l.filter p) = some v := by
  induction l with
  | nil => simp [List.lookup] at hl
  | cons kv rest ih =>
    obtain ⟨k', v'⟩ := kv
    by_cases hk : k = k'
    · subst hk
      rw [lookup_cons_same] at hl
      injection hl with hv
      subst hv
      simp [List.filter, hp, lookup_cons_same]
    · rw [lookup_cons_diff _ _ _ _ hk] at hl
      cases hpv : p (k', v') with
      | true =>
        simp only [List.filter, hpv]
        rw [lookup_cons_diff _ _ _ _ hk]
        exact ih hl
      | false =>
        simp only [List.filter, hpv]
        exact ih hl

theorem lookup_eraseField (fs : List (String × JVal)) (k : String) :
    List.lookup k (eraseField fs k) = none := by
  induction fs with
  | nil => simp [eraseField]
  | cons kv rest ih =>
    obtain ⟨k', v'⟩ := kv
    by_cases hk : k' = k
    · subst hk
      simpa [eraseField, List.filter] using ih
    · simp only [eraseField, List.filter] at ih ⊢
      have : (k' == k) = false := by simpa using hk
      simp only [this, Bool.not_false]
      rw [lookup_cons_diff _ _ _ _ (Ne.symm hk)]
      exact ih

theorem lookup_setField_self (fs : List (String × JVal)) (k : String) (v : JVal) :
    List.lookup k (setField fs k v) = some v := by
  induction fs with
  | nil => simp [setField, List.lookup]
  | cons kv rest ih =>
    obtain ⟨k', v'⟩ := kv
    by_cases hk : k' = k
    · subst hk
      simp [setField, List.lookup]
    · simp only [setField, if_neg hk]
      rw [lookup_cons_diff _ _ _ _ (Ne.symm hk)]
      exact ih

theorem lookup_setField_ne (fs : List (String × JVal)) (k k' : String) (v : JVal)
    (h : k' ≠ k) : List.lookup k (setField fs k' v) = List.lookup k fs := by
  induction fs with
  | nil =>
    simp only [setField]
    rw [lookup_cons_diff _ _ _ _ (Ne.symm h)]
  | cons kv rest ih =>
    obtain ⟨k₀, v₀⟩ := kv
    by_cases hk : k₀ = k'
    · subst hk
      have hs : setField ((k₀, v₀) :: rest) k₀ v = (k₀, v) :: rest := by
        simp [setField]
      rw [hs, lookup_cons_diff _ _ _ _ (Ne.symm h), lookup_cons_diff _ _ _ _ (Ne.symm h)]
    · simp only [setField, if_neg hk]
      by_cases hk0 : k₀ = k
      · subst hk0
        simp [List.lookup]
      · rw [lookup_cons_diff _ _ _ _ (Ne.symm hk0), lookup_cons_diff _ _ _ _ (Ne.symm hk0)]
        exact ih

theorem get_set_other (w : JVal) (k k' : String) (v : JVal) (h : k' ≠ k) :
    (w.set k' v).get k = w.get k := by
  cases w <;> simp only [JVal.set, JVal.get]
  rw [lookup_setField_ne _ _ _ _ h]

theorem get_set_self_obj (fs : List (String × JVal)) (k : String) (v : JVal) :
    ((JVal.obj fs).set k v).get k = v := by
  simp only [JVal.set, JVal.get, lookup_setField_self]

theorem all_filter_self {β : Type} (l : List β) (p : β → Bool) :
    (l.filter p).all p = true := by
  induction l with
  | nil => simp
  | cons x rest ih =>
    cases hx : p x with
    | true => simp [List.filter, hx, ih]
    | false => simp [List.filter, hx, ih]

theorem all_filter_of_all {β : Type} (l : List β) (p q : β → Bool)
    (h : l.all p = true) : (l.filter q).all p = true := by
  induction l with
  | nil => simp
  | cons x rest ih =>
    simp only [List.all_cons, Bool.and_eq_true] at h
    cases hx : q x with
    | true => simp [List.filter, hx, h.1, ih h.2]
    | false => simp [List.filter, hx, ih h.2]

theorem all_setField (fs : List (String × JVal)) (k : String) (v : JVal)
    (p : String × JVal → Bool) (hall : fs.all p = true) (hv : p (k, v) = true) :
    (setField fs k v).all p = true := by
  induction fs with
  | nil => simpa [setField] using hv
  | cons kv rest ih =>
    obtain ⟨k', v'⟩ := kv
    simp only [List.all_cons, Bool.and_eq_true] at hall
    by_cases hk : k' = k
    · subst hk
      simp [setField, hv, hall.2]
    · simp [setField, if_neg hk, hall.1, ih hall.2]

theorem lookup_cleanFields_skip (k k' : String) (v : JVal)
    (rest : List (String × JVal)) (h : k' ≠ k) :
    List.lookup k (cleanFields ((k', v) :: rest))
      = List.lookup k (cleanFields rest) := by
  by_cases hv : (v.isNull || v.isUndef) = true
  · simp [cleanFields, hv]
  · simp only [cleanFields, hv, Bool.false_eq_true, if_false]
    exact lookup_cons_diff _ _ _ _ (Ne.symm h)

/-- No top-level field of the value is null (trivially so for
non-objects). -/
def topFieldsNoNull : JVal → Bool
  | .obj fs => fs.all (fun kv => !(kv.2.isNull))
  | _ => true

/-- When the value's `response_format` field is an object, none of that
object's direct fields is null (trivially so otherwise). -/
def rfObjFieldsNoNull : JVal → Bool
  | .obj fs =>
    match getField fs "response_format" with
    | JVal.obj g => g.all (fun kv => !(kv.2.isNull))
    | _ => true
  | _ => true

/-- C4 counterexample: the secondary Cloudflare pass does not remove nulls
at arbitrary depth.  A null field nested inside a top-level field other
than `response_format` (here `tools.x`) survives the pass untouched, so
the claim that every null-valued field is removed, including inside nested
objects at any depth, is false. -/
theorem cloudflarePass_keeps_nested_null :
    cloudflarePassV (JVal.obj [("tools", JVal.obj [("x", JVal.null)])])
      = JVal.obj [("tools", JVal.obj [("x", JVal.null)])] ∧
    hasNullField
      (cloudflarePassV (JVal.obj [("tools", JVal.obj [("x", JVal.null)])]))
      = true := by
  exact ⟨rfl, rfl⟩

/-- C4 (amended): for every body reaching the Cloudflare-specific secondary
sanitization pass, the pass removes every null-valued top-level field, and
every null-valued field sitting directly inside an object-valued
`response_format`; nulls nested anywhere else are not touched. -/
theorem cloudflarePass_strips_top_and_response_format (v : JVal) :
    topFieldsNoNull (cloudflarePassV v) = true ∧
    rfObjFieldsNoNull (cloudflarePassV v) = true := by
  cases v with
  | obj fs =>
    simp only [cloudflarePassV, cloudflarePass]
    have hball : (fs.filter (fun kv => !(kv.2.isNull))).all
        (fun kv => !(kv.2.isNull)) = true := all_filter_self _ _
    cases hrf : getField (fs.filter (fun kv => !(kv.2.isNull))) "response_format" with
    | obj g =>
      simp only [hrf]
      by_cases hemp : (g.filter (fun kv => !(kv.2.isNull))).isEmpty = true
      · simp only [hemp, if_true]
        constructor
        · simp [topFieldsNoNull, eraseField, all_filter_of_all _ _ _ hball]
        · simp [rfObjFieldsNoNull, getField, lookup_eraseField]
      · simp only [hemp, Bool.false_eq_true, if_false]
        constructor
        · simp only [topFieldsNoNull]
          exact all_setField _ _ _ _ hball rfl
        · simp only [rfObjFieldsNoNull, getField, lookup_setField_self]
          exact all_filter_self _ _
    | arr xs =>
      simp only [hrf]
      by_cases hall : xs.all JVal.isNull = true
      · simp only [hall, if_true]
        constructor
        · simp [topFieldsNoNull, eraseField, all_filter_of_all _ _ _ hball]
        · simp [rfObjFieldsNoNull, getField, lookup_eraseField]
      · simp only [hall, Bool.false_eq_true, if_false]
        constructor
        · simp [topFieldsNoNull, hball]
        · simp [rfObjFieldsNoNull, hrf]
    | null =>
      simp only [hrf]
      exact ⟨by simp [topFieldsNoNull, hball], by simp [rfObjFieldsNoNull, hrf]⟩
    | undef =>
      simp only [hrf]
      exact ⟨by simp [topFieldsNoNull, hball], by simp [rfObjFieldsNoNull, hrf]⟩
    | bool b =>
      simp only [hrf]
      exact ⟨by simp [topFieldsNoNull, hball], by simp [rfObjFieldsNoNull, hrf]⟩
    | num n =>
      simp only [hrf]
      exact ⟨by simp [topFieldsNoNull, hball], by simp [rfObjFieldsNoNull, hrf]⟩
    | str s =>
      simp only [hrf]
      exact ⟨by simp [topFieldsNoNull, hball], by simp [rfObjFieldsNoNull, hrf]⟩
  | null => exact ⟨rfl, rfl⟩
  | undef => exact ⟨rfl, rfl⟩
  | bool b => exact ⟨rfl, rfl⟩
  | num n => exact ⟨rfl, rfl⟩
  | str s => exact ⟨rfl, rfl⟩
  | arr xs => exact ⟨rfl, rfl⟩

/-- C5: whenever the `response_format` field of a body reaching the
Cloudflare-specific secondary pass is an object that reduces to the empty
object once its null-valued fields are stripped, the body produced by the
pass has no `response_format` key at all. -/
theorem emptied_response_format_is_removed (fs g : List (String × JVal))
    (hrf : List.lookup "response_format" fs = some (JVal.obj g))
    (hemp : g.filter (fun kv => !(kv.2.isNull)) = []) :
    hasKeyV (cloudflarePassV (JVal.obj fs)) "response_format" = false := by
  have hb1 : List.lookup "response_format" (fs.filter (fun kv => !(kv.2.isNull)))
      = some (JVal.obj g) :=
    lookup_filter_of_pred _ _ _ _ hrf rfl
  have hg : getField (fs.filter (fun kv => !(kv.2.isNull))) "response_format"
      = JVal.obj g := by
    simp [getField, hb1]
  simp only [cloudflarePassV, cloudflarePass, hg, hemp, List.isEmpty_nil, if_true]
  simp [hasKeyV, lookup_eraseField]

/-- C5 witness: a concrete body whose `response_format` holds only a null
field loses the whole key in the Cloudflare pass. -/
theorem emptied_response_format_is_removed_witness :
    hasKeyV
      (cloudflarePassV (JVal.obj
        [("model", JVal.str "m"),
         ("response_format", JVal.obj [("type", JVal.null)])]))
      "response_format" = false :=
  emptied_response_format_is_removed
    [("model", JVal.str "m"), ("response_format", JVal.obj [("type", JVal.null)])]
    [("type", JVal.null)] rfl rfl

/-- C7: in the sanitized request body handed onward to the transform hook
and to dispatch, the `response_format` key is present, with value
`{type:'json_object'}`, exactly when the normalized `jsonMode` option is
truthy; when `jsonMode` is not set the key is absent. -/
theorem response_format_present_iff_jsonMode (modelName msgs : JVal)
    (o : NormOptions) :
    (cleanNullAndUndefined (JVal.obj (buildRequestBody modelName msgs o))).get
        "response_format"
      = (if o.jsonMode.truthy then JVal.obj [("type", JVal.str "json_object")]
         else JVal.undef) ∧
    hasKeyV (cleanNullAndUndefined (JVal.obj (buildRequestBody modelName msgs o)))
        "response_format"
      = o.jsonMode.truthy := by
  have h1 : List.lookup "response_format"
      (cleanFields (buildRequestBody modelName msgs o))
      = (if o.jsonMode.truthy
         then some (JVal.obj [("type", JVal.str "json_object")]) else none) := by
    unfold buildRequestBody
    rw [lookup_cleanFields_skip _ _ _ _ (by decide),
      lookup_cleanFields_skip _ _ _ _ (by decide),
      lookup_cleanFields_skip _ _ _ _ (by decide),
      lookup_cleanFields_skip _ _ _ _ (by decide),
      lookup_cleanFields_skip _ _ _ _ (by decide),
      lookup_cleanFields_skip _ _ _ _ (by decide)]
    by_cases hj : o.jsonMode.truthy = true
    · simp only [hj, if_true]
      rw [show cleanFields
          (("response_format", JVal.obj [("type", JVal.str "json_object")])
            :: [("tools", o.tools), ("tool_choice", o.tool_choice)])
          = ("response_format",
              cleanNullAndUndefined (JVal.obj [("type", JVal.str "json_object")]))
            :: cleanFields [("tools", o.tools), ("tool_choice", o.tool_choice)]
        from by simp [cleanFields, JVal.isNull, JVal.isUndef]]
      rw [lookup_cons_same]
      rfl
    · rw [Bool.not_eq_true] at hj
      simp only [hj, Bool.false_eq_true, if_false]
      rw [show cleanFields
          (("response_format", JVal.undef)
            :: [("tools", o.tools), ("tool_choice", o.tool_choice)])
          = cleanFields [("tools", o.tools), ("tool_choice", o.tool_choice)]
        from by simp [cleanFields, JVal.isUndef]]
      rw [lookup_cleanFields_skip _ _ _ _ (by decide),
        lookup_cleanFields_skip _ _ _ _ (by decide)]
      rfl
  constructor
  · simp only [cleanNullAndUndefined, JVal.get, h1]
    by_cases hj : o.jsonMode.truthy = true
    · simp [hj]
    · rw [Bool.not_eq_true] at hj
      simp [hj]
  · simp only [cleanNullAndUndefined, hasKeyV, h1]
    by_cases hj : o.jsonMode.truthy = true
    · simp [hj]
    · rw [Bool.not_eq_true] at hj
      simp [hj]

/-- C8 counterexample: a model key that maps to an entry whose value is the
empty string does not resolve to that entry; the JavaScript truthiness
fallback replaces it with the first entry's value. -/
theorem model_mapping_falsy_entry_falls_back :
    List.lookup "b" [("a", "x"), ("b", "")] = some "" ∧
    resolveModelName [("a", "x"), ("b", "")] (JVal.str "b") = JVal.str "x" ∧
    JVal.str "x" ≠ JVal.str "" := by
  refine ⟨rfl, rfl, ?_⟩
  intro h
  injection h with h2
  exact absurd h2 (by decide)

/-- C8 (amended): the resolved provider-native model name equals
`modelMapping[modelKey]` when the key maps to an entry whose value is
truthy (a non-empty string); when the key is unknown, or its entry is the
empty string, the name falls back to the value looked up under the
mapping's first key.  The resolved name is the `model` field of the built
request body and the argument of a function-valued endpoint. -/
theorem resolved_model_name_spec (mm : List (String × String)) (k : JVal) :
    resolveModelName mm k
      = (match List.lookup k.toPropertyKey mm with
         | some v => if v = "" then mappingRead mm (firstKey mm) else JVal.str v
         | none => mappingRead mm (firstKey mm)) ∧
    (∀ msgs o, getField (buildRequestBody (resolveModelName mm k) msgs o) "model"
        = resolveModelName mm k) ∧
    (∀ f, resolveEndpointUrl (Endpoint.fn f) (resolveModelName mm k)
        = f (resolveModelName mm k)) := by
  refine ⟨?_, fun msgs o => rfl, fun f => rfl⟩
  unfold resolveModelName jsOr
  cases h : List.lookup k.toPropertyKey mm with
  | none => simp [mappingRead, h, JVal.truthy]
  | some v =>
    by_cases hv : v = ""
    · subst hv
      simp [mappingRead, h, JVal.truthy, show "".isEmpty = true from rfl]
    · have hne : v.isEmpty = false := by
        rw [Bool.eq_false_iff]
        intro he
        exact hv ((String.isEmpty_iff v).mp he)
      simp [mappingRead, h, JVal.truthy, hne, hv]

theorem adapterCall_fst (cfg : Config) (env : Env) :
    (adapterCall cfg env).1 = (innerCall cfg env).1 := by
  unfold adapterCall
  rcases innerCall cfg env with ⟨tr, res⟩
  cases res <;> rfl

theorem adapterCall_of_inner_error (cfg : Config) (env : Env) (m : String)
    (h : (innerCall cfg env).2 = Except.error m) :
    (adapterCall cfg env).2
      = CallOutcome.returned (CallValue.response
          (createErrorResponse m cfg.providerName)) := by
  unfold adapterCall
  rcases hres : innerCall cfg env with ⟨tr, res⟩
  rw [hres] at h
  cases res with
  | ok v => simp at h
  | error e =>
    injection h with h2
    subst h2
    rfl

theorem adapterCall_of_inner_ok (cfg : Config) (env : Env) (v : CallValue)
    (h : (innerCall cfg env).2 = Except.ok v) :
    (adapterCall cfg env).2 = CallOutcome.returned v := by
  unfold adapterCall
  rcases hres : innerCall cfg env with ⟨tr, res⟩
  rw [hres] at h
  cases res with
  | error e => simp at h
  | ok w =>
    injection h with h2
    subst h2
    rfl

/-- Exhaustive case analysis of the `try` body: it either throws, returns a
streaming envelope (only on a truthy `stream` option, with the envelope's
error field undefined), returns the non-2xx Uniform Error Response of line
212, or returns the non-streaming success value on a parsed 2xx body. -/
theorem innerCall_cases (cfg : Config) (env : Env) :
    (∃ m, (innerCall cfg env).2 = Except.error m) ∨
    (∃ e, (innerCall cfg env).2 = Except.ok (CallValue.envelope e) ∧
       env.normalizedOptions.stream.truthy = true ∧ e.error = none) ∨
    (∃ m, (innerCall cfg env).2
       = Except.ok (CallValue.response (createErrorResponse m cfg.providerName))) ∨
    (∃ r data, env.fetchResult = Except.ok r ∧ r.ok = true ∧
       r.jsonBody = Except.ok data ∧
       (innerCall cfg env).2
         = Except.ok (CallValue.response (nonStreamSuccess cfg env data)) ∧
       env.normalizedOptions.stream.truthy = false) := by
  unfold innerCall
  split
  · exact Or.inl ⟨_, rfl⟩
  · split
    · exact Or.inl ⟨_, rfl⟩
    · split
      · exact Or.inl ⟨_, rfl⟩
      · split
        · exact Or.inl ⟨_, rfl⟩
        · rename_i r heqr
          split
          · rename_i hstream
            split
            · exact Or.inl ⟨_, rfl⟩
            · rename_i hrok
              refine Or.inr (Or.inl ⟨_, rfl, hstream, ?_⟩)
              simp [mkStreamingEnvelope, hrok]
          · rename_i hstream
            split
            · exact Or.inr (Or.inr (Or.inl ⟨_, rfl⟩))
            · rename_i hrok
              split
              · exact Or.inl ⟨_, rfl⟩
              · rename_i data heqd
                refine Or.inr (Or.inr (Or.inr
                  ⟨r, data, heqr, ?_, heqd, rfl, ?_⟩))
                · simpa using hrok
                · simpa using hstream

/-- C3: when the credential accessor yields a falsy value, the call fails
with the configuration error naming the provider ("\<providerName\> API
key is not set") before any HTTP request is issued: the effect trace is
empty, so the network dispatch step is never reached. -/
theorem missing_api_key_fails_before_dispatch (cfg : Config) (env : Env)
    (h : env.authValue.truthy = false) :
    adapterCall cfg env
      = ([], CallOutcome.returned (CallValue.response
          (createErrorResponse (cfg.providerName ++ " API key is not set")
            cfg.providerName))) := by
  unfold adapterCall innerCall
  simp [h]

/-- C3 witness: a concrete provider whose credential accessor returns the
empty string fails with the configuration error and an empty effect
trace. -/
theorem missing_api_key_fails_before_dispatch_witness :
    adapterCall
      { endpoint := Endpoint.url "https://api.example.com/chat"
        providerName := "Mistral" }
      { requestId := "r1", startTime := 0, authValue := JVal.str ""
        normalizedOptions := {}
        validatedMessages := Except.ok (JVal.arr [])
        messagesWithSystem := JVal.arr []
        fetchResult := Except.error "unreachable" }
      = ([], CallOutcome.returned (CallValue.response
          (createErrorResponse "Mistral API key is not set" "Mistral"))) :=
  missing_api_key_fails_before_dispatch _ _ rfl

/-- C1: evaluating the adapter at a streaming call (truthy `stream`
option) whose upstream status is 500 shows the pre-flight failure being
thrown inside the `try` body (`innerCall` ends in `Except.error`, the
throw of source line 170) and then caught by the outer catch of lines
260-270, which converts it into a returned Uniform Error Response: the
call hands the caller an error-shaped return value instead of propagating
a thrown error, contrary to the claim and to the intent stated in the
source comment at lines 168-169. -/
theorem streaming_preflight_500_is_returned_not_thrown :
    (innerCall
      { endpoint := Endpoint.url "https://api.example.com/v1/chat"
        providerName := "TestProvider"
        modelMapping := [("test", "test-model")] }
      { requestId := "req1", startTime := 5000
        authValue := JVal.str "key"
        normalizedOptions := { model := JVal.str "test", stream := JVal.bool true }
        validatedMessages := Except.ok
          (JVal.arr [JVal.obj [("role", JVal.str "user"), ("content", JVal.str "hi")]])
        messagesWithSystem :=
          JVal.arr [JVal.obj [("role", JVal.str "user"), ("content", JVal.str "hi")]]
        fetchResult := Except.ok
          { status := 500, statusText := "Internal Server Error"
            bodyText := "boom" } }).2
      = Except.error "TestProvider API error: 500 Internal Server Error" ∧
    (adapterCall
      { endpoint := Endpoint.url "https://api.example.com/v1/chat"
        providerName := "TestProvider"
        modelMapping := [("test", "test-model")] }
      { requestId := "req1", startTime := 5000
        authValue := JVal.str "key"
        normalizedOptions := { model := JVal.str "test", stream := JVal.bool true }
        validatedMessages := Except.ok
          (JVal.arr [JVal.obj [("role", JVal.str "user"), ("content", JVal.str "hi")]])
        messagesWithSystem :=
          JVal.arr [JVal.obj [("role", JVal.str "user"), ("content", JVal.str "hi")]]
        fetchResult := Except.ok
          { status := 500, statusText := "Internal Server Error"
            bodyText := "boom" } }).2
      = CallOutcome.returned (CallValue.response
          (createErrorResponse "TestProvider API error: 500 Internal Server Error"
            "TestProvider")) :=
  ⟨rfl, rfl⟩

/-- C10: every streaming envelope the adapter actually returns carries the
JavaScript `undefined` (`none`) in its error field: the non-2xx guard
inside the envelope literal of lines 180-191 is unreachable, because a
non-2xx status on the streaming path throws at line 170 before the
envelope is built. -/
theorem returned_envelope_error_is_undefined (cfg : Config) (env : Env)
    (e : StreamingEnvelope)
    (h : (adapterCall cfg env).2 = CallOutcome.returned (CallValue.envelope e)) :
    e.error = none := by
  rcases innerCall_cases cfg env with ⟨m, hm⟩ | ⟨e', he', _, herr⟩ | ⟨m, hm⟩
    | ⟨r, data, _, _, _, hs, _⟩
  · rw [adapterCall_of_inner_error cfg env m hm] at h
    simp at h
  · rw [adapterCall_of_inner_ok cfg env _ he'] at h
    injection h with h2
    injection h2 with h3
    rw [← h3]
    exact herr
  · rw [adapterCall_of_inner_ok cfg env _ hm] at h
    simp at h
  · rw [adapterCall_of_inner_ok cfg env _ hs] at h
    simp at h

/-- C10 witness: a concrete successful streaming call returns the literal
envelope, whose error field is `none`. -/
theorem returned_envelope_error_is_undefined_witness :
    (adapterCall
      { endpoint := Endpoint.url "https://api.example.com/v1/chat"
        providerName := "Prov"
        modelMapping := [("m", "native-m")] }
      { requestId := "r7", startTime := 12345
        authValue := JVal.str "k"
        normalizedOptions := { model := JVal.str "m", stream := JVal.bool true }
        validatedMessages := Except.ok (JVal.arr [])
        messagesWithSystem := JVal.arr []
        fetchResult := Except.ok
          { status := 200, statusText := "OK"
            contentType := some "text/event-stream"
            bodyText := "chunks" } }).2
      = CallOutcome.returned (CallValue.envelope
          { id := "prov-r7", object := "chat.completion.chunk", created := 12
            model := JVal.str "native-m", stream := true
            responseStream := "chunks", providerName := "Prov"
            isSSE := some true
            choices := JVal.arr [JVal.obj
              [("delta", JVal.obj [("content", JVal.str "")]),
               ("finish_reason", JVal.null),
               ("index", JVal.num 0)]]
            error := none }) ∧
    (StreamingEnvelope.error
      { id := "prov-r7", object := "chat.completion.chunk", created := 12
        model := JVal.str "native-m", stream := true
        responseStream := "chunks", providerName := "Prov"
        isSSE := some true
        choices := JVal.arr [JVal.obj
          [("delta", JVal.obj [("content", JVal.str "")]),
           ("finish_reason", JVal.null),
           ("index", JVal.num 0)]]
        error := none }) = none :=
  ⟨rfl, returned_envelope_error_is_undefined
    { endpoint := Endpoint.url "https://api.example.com/v1/chat"
      providerName := "Prov"
      modelMapping := [("m", "native-m")] }
    { requestId := "r7", startTime := 12345
      authValue := JVal.str "k"
      normalizedOptions := { model := JVal.str "m", stream := JVal.bool true }
      validatedMessages := Except.ok (JVal.arr [])
      messagesWithSystem := JVal.arr []
      fetchResult := Except.ok
        { status := 200, statusText := "OK"
          contentType := some "text/event-stream"
          bodyText := "chunks" } }
    { id := "prov-r7", object := "chat.completion.chunk", created := 12
      model := JVal.str "native-m", stream := true
      responseStream := "chunks", providerName := "Prov"
      isSSE := some true
      choices := JVal.arr [JVal.obj
        [("delta", JVal.obj [("content", JVal.str "")]),
         ("finish_reason", JVal.null),
         ("index", JVal.num 0)]]
      error := none }
    rfl⟩

/-- C9: the effect trace of any call is either empty (dispatch never
reached) or exactly one HTTP POST whose URL is the resolved endpoint
(invoked as a function of the resolved model name when so configured),
whose headers are the auth header and the JSON content type merged with
all entries of `additionalHeaders`, and whose body is the JSON
serialization of the sanitized, optionally transformed (and, for
Cloudflare, secondarily sanitized) request body. -/
theorem single_post_dispatch (cfg : Config) (env : Env) :
    (adapterCall cfg env).1 = [] ∨
    ∃ t, theTransformed cfg env = Except.ok t ∧
      (adapterCall cfg env).1
        = [Effect.fetch (resolveEndpointUrl cfg.endpoint (theModelName cfg env))
            "POST"
            (buildHeaders cfg.authHeaderName env.authValue cfg.additionalHeaders)
            (jsonStringify (theFinalBody cfg t))] := by
  rw [adapterCall_fst]
  unfold innerCall
  split
  · exact Or.inl rfl
  · split
    · exact Or.inl rfl
    · split
      · exact Or.inl rfl
      · rename_i t ht
        refine Or.inr ⟨t, ht, ?_⟩
        split
        · rfl
        · split
          · split
            · rfl
            · rfl
          · split
            · rfl
            · split
              · rfl
              · rfl

/-- C2: on every call whose normalized options do not request streaming,
the adapter returns (never throws): the outcome is a returned plain value
that is either the Uniform Error Response built by the error classifier
from the thrown or upstream error and the provider name, or the
non-streaming success value of a parsed 2xx body. -/
theorem nonstreaming_never_throws (cfg : Config) (env : Env)
    (h : env.normalizedOptions.stream.truthy = false) :
    ∃ v, (adapterCall cfg env).2 = CallOutcome.returned (CallValue.response v) ∧
      ((∃ m, v = createErrorResponse m cfg.providerName) ∨
       (∃ r data, env.fetchResult = Except.ok r ∧ r.ok = true ∧
          r.jsonBody = Except.ok data ∧ v = nonStreamSuccess cfg env data)) := by
  rcases innerCall_cases cfg env with ⟨m, hm⟩ | ⟨e, _, hstream, _⟩ | ⟨m, hm⟩
    | ⟨r, data, hr, hok, hj, hs, _⟩
  · exact ⟨createErrorResponse m cfg.providerName,
      adapterCall_of_inner_error cfg env m hm, Or.inl ⟨m, rfl⟩⟩
  · rw [h] at hstream
    exact absurd hstream (by simp)
  · exact ⟨createErrorResponse m cfg.providerName,
      adapterCall_of_inner_ok cfg env _ hm, Or.inl ⟨m, rfl⟩⟩
  · exact ⟨nonStreamSuccess cfg env data,
      adapterCall_of_inner_ok cfg env _ hs,
      Or.inr ⟨r, data, hr, hok, hj, rfl⟩⟩

/-- C2 witness: a concrete non-streaming call whose upstream replies 404
returns a value and that value is a Uniform Error Response. -/
theorem nonstreaming_never_throws_witness :
    ∃ v,
      (adapterCall
        { endpoint := Endpoint.url "https://api.example.com/v1/chat"
          providerName := "Scaleway"
          modelMapping := [("m", "native-m")] }
        { requestId := "r9", startTime := 100
          authValue := JVal.str "k"
          normalizedOptions := { model := JVal.str "m", stream := JVal.bool false }
          validatedMessages := Except.ok (JVal.arr [])
          messagesWithSystem := JVal.arr []
          fetchResult := Except.ok
            { status := 404, statusText := "Not Found"
              bodyText := "nope" } }).2
        = CallOutcome.returned (CallValue.response v) ∧
      ((∃ m, v = createErrorResponse m "Scaleway") ∨
       (∃ r data,
          (Except.ok { status := 404, statusText := "Not Found", bodyText := "nope" }
            : Except String HttpResponse) = Except.ok r ∧
          r.ok = true ∧ r.jsonBody = Except.ok data ∧
          v = nonStreamSuccess
            { endpoint := Endpoint.url "https://api.example.com/v1/chat"
              providerName := "Scaleway"
              modelMapping := [("m", "native-m")] }
            { requestId := "r9", startTime := 100
              authValue := JVal.str "k"
              normalizedOptions := { model := JVal.str "m", stream := JVal.bool false }
              validatedMessages := Except.ok (JVal.arr [])
              messagesWithSystem := JVal.arr []
              fetchResult := Except.ok
                { status := 404, statusText := "Not Found"
                  bodyText := "nope" } } data)) :=
  nonstreaming_never_throws
    { endpoint := Endpoint.url "https://api.example.com/v1/chat"
      providerName := "Scaleway"
      modelMapping := [("m", "native-m")] }
    { requestId := "r9", startTime := 100
      authValue := JVal.str "k"
      normalizedOptions := { model := JVal.str "m", stream := JVal.bool false }
      validatedMessages := Except.ok (JVal.arr [])
      messagesWithSystem := JVal.arr []
      fetchResult := Except.ok
        { status := 404, statusText := "Not Found"
          bodyText := "nope" } }
    rfl

theorem backfill_id_field (ds : List (String × JVal)) (p rid : String)
    (h : ((JVal.obj ds).get "id").truthy = false) :
    (backfill (JVal.obj ds) p rid).get "id"
      = JVal.str (strToLower p ++ "-" ++ rid) := by
  simp only [backfill, h, eq_self_iff_true, if_true]
  split
  · split
    · rw [get_set_other _ _ _ _ (show ("usage" : String) ≠ "id" by decide),
        get_set_other _ _ _ _ (show ("object" : String) ≠ "id" by decide)]
      exact get_set_self_obj ds _ _
    · rw [get_set_other _ _ _ _ (show ("object" : String) ≠ "id" by decide)]
      exact get_set_self_obj ds _ _
  · split
    · rw [get_set_other _ _ _ _ (show ("usage" : String) ≠ "id" by decide)]
      exact get_set_self_obj ds _ _
    · exact get_set_self_obj ds _ _

theorem backfill_object_field (ds : List (String × JVal)) (p rid : String)
    (h : ((JVal.obj ds).get "object").truthy = false) :
    (backfill (JVal.obj ds) p rid).get "object" = JVal.str "chat.completion" := by
  simp only [backfill]
  split
  · rename_i hid
    have h1 : (((JVal.obj ds).set "id"
        (JVal.str (strToLower p ++ "-" ++ rid))).get "object").truthy = false := by
      rw [get_set_other _ _ _ _ (show ("id" : String) ≠ "object" by decide)]
      exact h
    rw [if_pos h1]
    split
    · rw [get_set_other _ _ _ _ (show ("usage" : String) ≠ "object" by decide)]
      exact get_set_self_obj _ _ _
    · exact get_set_self_obj _ _ _
  · split
    · rw [get_set_other _ _ _ _ (show ("usage" : String) ≠ "object" by decide)]
      exact get_set_self_obj ds _ _
    · exact get_set_self_obj ds _ _

theorem backfill_usage_field (ds : List (String × JVal)) (p rid : String)
    (h : ((JVal.obj ds).get "usage").truthy = false) :
    (backfill (JVal.obj ds) p rid).get "usage"
      = JVal.obj [("prompt_tokens", JVal.num 0), ("completion_tokens", JVal.num 0),
          ("total_tokens", JVal.num 0)] := by
  simp only [backfill]
  split
  · rename_i hid
    have h1 : (((JVal.obj ds).set "id"
        (JVal.str (strToLower p ++ "-" ++ rid))).get "usage").truthy = false := by
      rw [get_set_other _ _ _ _ (show ("id" : String) ≠ "usage" by decide)]
      exact h
    split
    · rename_i hobj
      have h2 : ((((JVal.obj ds).set "id" (JVal.str (strToLower p ++ "-" ++ rid))).set
          "object" (JVal.str "chat.completion")).get "usage").truthy = false := by
        rw [get_set_other _ _ _ _ (show ("object" : String) ≠ "usage" by decide)]
        exact h1
      rw [if_pos h2]
      exact get_set_self_obj _ _ _
    · exact get_set_self_obj _ _ _
  · split
    · rename_i hobj
      have h2 : (((JVal.obj ds).set "object" (JVal.str "chat.completion")).get
          "usage").truthy = false := by
        rw [get_set_other _ _ _ _ (show ("object" : String) ≠ "usage" by decide)]
        exact h
      rw [if_pos h2]
      exact get_set_self_obj _ _ _
    · exact get_set_self_obj ds _ _

/-- C6: on a successful (2xx) non-streaming call whose body parses to the
object `data`: with a configured `formatResponse` the adapter returns
exactly `formatResponse(data, requestId, startTime, modelName)` and
applies no backfilling; with none configured it returns the backfilled
payload, in which a missing (falsy) `id` becomes
"\<providerName lowercased\>-\<requestId\>", a missing `object` becomes
"chat.completion", and a missing `usage` becomes the all-zero usage
record. -/
theorem success_format_or_backfill (cfg : Config) (env : Env)
    (r : HttpResponse) (ds : List (String × JVal))
    (hs : env.normalizedOptions.stream.truthy = false)
    (ha : env.authValue.truthy = true)
    (hv : ∃ vm, env.validatedMessages = Except.ok vm)
    (ht : ∃ t, theTransformed cfg env = Except.ok t)
    (hf : env.fetchResult = Except.ok r)
    (hok : r.ok = true)
    (hj : r.jsonBody = Except.ok (JVal.obj ds)) :
    (∀ f, cfg.formatResponse = some f →
       (adapterCall cfg env).2 = CallOutcome.returned (CallValue.response
         (f (JVal.obj ds) env.requestId env.startTime (theModelName cfg env)))) ∧
    (cfg.formatResponse = none →
       (adapterCall cfg env).2 = CallOutcome.returned (CallValue.response
         (backfill (JVal.obj ds) cfg.providerName env.requestId)) ∧
       (((JVal.obj ds).get "id").truthy = false →
          (backfill (JVal.obj ds) cfg.providerName env.requestId).get "id"
            = JVal.str (strToLower cfg.providerName ++ "-" ++ env.requestId)) ∧
       (((JVal.obj ds).get "object").truthy = false →
          (backfill (JVal.obj ds) cfg.providerName env.requestId).get "object"
            = JVal.str "chat.completion") ∧
       (((JVal.obj ds).get "usage").truthy = false →
          (backfill (JVal.obj ds) cfg.providerName env.requestId).get "usage"
            = JVal.obj [("prompt_tokens", JVal.num 0),
                ("completion_tokens", JVal.num 0),
                ("total_tokens", JVal.num 0)])) := by
  obtain ⟨vm, hvm⟩ := hv
  obtain ⟨t, htr⟩ := ht
  have hinner : (innerCall cfg env).2
      = Except.ok (CallValue.response (nonStreamSuccess cfg env (JVal.obj ds))) := by
    unfold innerCall
    simp [ha, hvm, htr, hf, hs, hj, hok]
  constructor
  · intro f hfmt
    rw [adapterCall_of_inner_ok cfg env _ hinner]
    simp [nonStreamSuccess, hfmt]
  · intro hfmt
    refine ⟨?_, fun hid => backfill_id_field ds _ _ hid,
      fun hobj => backfill_object_field ds _ _ hobj,
      fun husage => backfill_usage_field ds _ _ husage⟩
    rw [adapterCall_of_inner_ok cfg env _ hinner]
    simp [nonStreamSuccess, hfmt]

/-- C6 witness: a concrete 2xx non-streaming call whose payload is the
empty object gets all three fields backfilled. -/
theorem success_format_or_backfill_witness :
    (adapterCall
      { endpoint := Endpoint.url "https://api.example.com/v1/chat"
        providerName := "Prov"
        modelMapping := [("m", "native-m")] }
      { requestId := "r2", startTime := 99
        authValue := JVal.str "k"
        normalizedOptions := { model := JVal.str "m", stream := JVal.bool false }
        validatedMessages := Except.ok (JVal.arr [])
        messagesWithSystem := JVal.arr []
        fetchResult := Except.ok
          { status := 200, statusText := "OK", bodyText := "\x7b\x7d"
            jsonBody := Except.ok (JVal.obj []) } }).2
      = CallOutcome.returned (CallValue.response (backfill (JVal.obj []) "Prov" "r2")) ∧
    (backfill (JVal.obj []) "Prov" "r2").get "id" = JVal.str "prov-r2" ∧
    (backfill (JVal.obj []) "Prov" "r2").get "object" = JVal.str "chat.completion" ∧
    (backfill (JVal.obj []) "Prov" "r2").get "usage"
      = JVal.obj [("prompt_tokens", JVal.num 0), ("completion_tokens", JVal.num 0),
          ("total_tokens", JVal.num 0)] := by
  have h := (success_format_or_backfill
    { endpoint := Endpoint.url "https://api.example.com/v1/chat"
      providerName := "Prov"
      modelMapping := [("m", "native-m")] }
    { requestId := "r2", startTime := 99
      authValue := JVal.str "k"
      normalizedOptions := { model := JVal.str "m", stream := JVal.bool false }
      validatedMessages := Except.ok (JVal.arr [])
      messagesWithSystem := JVal.arr []
      fetchResult := Except.ok
        { status := 200, statusText := "OK", bodyText := "\x7b\x7d"
          jsonBody := Except.ok (JVal.obj []) } }
    { status := 200, statusText := "OK", bodyText := "\x7b\x7d"
      jsonBody := Except.ok (JVal.obj []) }
    [] rfl rfl ⟨JVal.arr [], rfl⟩ ⟨_, rfl⟩ rfl rfl rfl).2 rfl
  exact ⟨h.1, h.2.1 rfl, h.2.2.1 rfl, h.2.2.2 rfl⟩

end GenOpenAI
